import Mathlib

/-!
Verification development for the live-sanctuary session and moderation core.

The definitions below are a shallow embedding of the JavaScript source:
the AI moderation service (aiModerationService), the enhanced live
sanctuary routes (session creation and join-via-invitation), and the
ElevenLabs voice-settings validation.  Strings are modelled as Lean
strings (lists of characters), times as integer milliseconds, and the
numeric content scores as rationals.
-/

namespace Veilo

/-! ## JavaScript string primitives -/

/-- ASCII word character, the JS regex class backslash-w. -/
def jsIsWordChar (c : Char) : Bool :=
  (c ≥ 'a' && c ≤ 'z') || (c ≥ 'A' && c ≤ 'Z') || (c ≥ '0' && c ≤ '9') || c == '_'

/-- ASCII whitespace, the JS regex class backslash-s (ASCII part). -/
def jsIsSpace (c : Char) : Bool :=
  c == ' ' || c == '\t' || c == '\n' || c == '\r' || c == '\x0b' || c == '\x0c'

/-- Characters matched by the JS regex dot (anything but a line terminator). -/
def jsDotMatches (c : Char) : Bool :=
  !(c == '\n' || c == '\r' || c == '\u2028' || c == '\u2029')

/-- Boolean list-prefix test. -/
def isPrefixList : List Char → List Char → Bool
  | [], _ => true
  | _ :: _, [] => false
  | a :: as, b :: bs => a == b && isPrefixList as bs

/-- Substring containment, the semantics of the JS String.includes. -/
def containsSub (needle : List Char) : List Char → Bool
  | [] => needle.isEmpty
  | c :: t => isPrefixList needle (c :: t) || containsSub needle t

/-- Length of the run of characters equal to c at the front of a list. -/
def countLeading (c : Char) : List Char → Nat
  | [] => 0
  | d :: t => if d == c then countLeading c t + 1 else 0

/-- Whether the list contains a run of at least 11 equal non-newline
characters: the JS regex of a captured dot followed by 10+ backreferences. -/
def hasRepeatedRun : List Char → Bool
  | [] => false
  | c :: t => (jsDotMatches c && decide (countLeading c t + 1 ≥ 11)) || hasRepeatedRun t

/-- Lowercase every character, the JS String.toLowerCase (ASCII). -/
def toLowerList (s : List Char) : List Char := s.map Char.toLower

/-- Uppercase every character, the JS String.toUpperCase (ASCII). -/
def toUpperList (s : List Char) : List Char := s.map Char.toUpper

/-- Whitespace trimming at both ends, the JS String.trim (ASCII part). -/
def jsTrim (s : List Char) : List Char :=
  ((s.dropWhile jsIsSpace).reverse.dropWhile jsIsSpace).reverse

/-! ## A small matcher for the crisis regular expressions

Each crisis pattern in the source is an alternation of literal words
separated by bounded gaps of arbitrary (non-line-terminator) characters,
so the pattern language only needs two constructors. -/

/-- One item of a crisis pattern: an alternation of literal strings, or a
gap of up to n arbitrary non-line-terminator characters. -/
inductive RxItem where
  | lit : List String → RxItem
  | gap : Nat → RxItem
  deriving Repr

/-- Match a pattern against the front of a character list. -/
def rxMatchFrom : List RxItem → List Char → Bool
  | [], _ => true
  | RxItem.lit alts :: rest, s =>
      alts.any (fun a => isPrefixList a.data s && rxMatchFrom rest (s.drop a.length))
  | RxItem.gap n :: rest, s =>
      (List.range (n + 1)).any
        (fun k => (s.take k).all jsDotMatches && rxMatchFrom rest (s.drop k))

/-- Whether the pattern matches anywhere in the character list, the
semantics of the JS RegExp.test. -/
def rxTest (p : List RxItem) (s : List Char) : Bool :=
  (List.range (s.length + 1)).any (fun i => rxMatchFrom p (s.drop i))

/-! ## AI moderation service (aiModerationService) -/

/-- The emergencyKeywords list of AIModerationService. -/
def emergencyKeywords : List String :=
  ["suicide", "kill myself", "end my life", "want to die", "self harm",
   "hurt myself", "overdose", "cutting", "razor", "pills to die",
   "gun to head", "jump off", "hanging myself", "no reason to live"]

/-- The five case-insensitive crisisPatterns of AIModerationService,
written over lowercase literals (the matcher is run on lowercased text). -/
def crisisPatterns : List (List RxItem) :=
  [ [RxItem.lit ["i want to", "going to", "plan to"], RxItem.gap 20,
     RxItem.lit ["kill", "hurt", "harm"], RxItem.gap 10, RxItem.lit ["myself"]],
    [RxItem.lit ["no one", "nobody"], RxItem.gap 20,
     RxItem.lit ["cares", "loves", "understands"], RxItem.gap 20, RxItem.lit ["me"]],
    [RxItem.lit ["life"], RxItem.gap 10, RxItem.lit ["is", "feels"], RxItem.gap 10,
     RxItem.lit ["meaningless", "pointless", "worthless"]],
    [RxItem.lit ["can\x27t", "cannot"], RxItem.gap 10,
     RxItem.lit ["go on", "take it", "handle"]],
    [RxItem.lit ["everything"], RxItem.gap 10, RxItem.lit ["is", "feels"], RxItem.gap 10,
     RxItem.lit ["hopeless", "dark", "empty"]] ]

/-- Result of the Tier-1 crisis check. -/
structure EmergencyResult where
  isEmergency : Bool
  reason : String
  confidence : ℚ
  deriving Repr, DecidableEq

/-- The preprocessing of checkEmergencyContent: lowercase the content and
strip every character that is neither a word character nor whitespace. -/
def strippedLower (content : String) : List Char :=
  (toLowerList content.data).filter (fun c => jsIsWordChar c || jsIsSpace c)

/-- checkEmergencyContent: lowercases the content, strips every character
that is neither a word character nor whitespace, looks for the first
emergency keyword as a substring, then tries the crisis patterns on the
(lowercased) raw content. -/
def checkEmergencyContent (content : String) : EmergencyResult :=
  match emergencyKeywords.find? (fun kw => containsSub (toLowerList kw.data) (strippedLower content)) with
  | some kw =>
      { isEmergency := true, reason := "Emergency keyword detected: " ++ kw,
        confidence := mkRat 9 10 }
  | none =>
      if crisisPatterns.any (fun p => rxTest p (toLowerList content.data)) then
        { isEmergency := true, reason := "Crisis language pattern detected",
          confidence := mkRat 8 10 }
      else
        { isEmergency := false, reason := "", confidence := 0 }

/-- The predicate of the specification sentence: the content contains a
configured crisis keyword (after the same lowercasing and stripping the
source applies) or matches a crisis regex pattern. -/
def hasCrisisContent (content : String) : Bool :=
  emergencyKeywords.any
    (fun kw => containsSub (toLowerList kw.data) (strippedLower content))
  || crisisPatterns.any (fun p => rxTest p (toLowerList content.data))

/-- Result of the basic heuristic content filter. -/
structure BasicFilterResult where
  flagged : Bool
  action : String
  severity : String
  reason : String
  deriving Repr, DecidableEq

/-- basicContentFilter: oversized message, repeated-character spam, and
all-caps shouting heuristics, in the order of the source. -/
def basicContentFilter (content : String) : BasicFilterResult :=
  if content.data.length > 1000 then
    { flagged := true, action := "warning", severity := "medium",
      reason := "Message too long (spam protection)" }
  else if hasRepeatedRun content.data then
    { flagged := true, action := "warning", severity := "medium",
      reason := "Excessive repeated characters" }
  else if content.data.length > 20 && toUpperList content.data == content.data then
    { flagged := true, action := "warning", severity := "low",
      reason := "Excessive use of capital letters" }
  else
    { flagged := false, action := "", severity := "", reason := "" }

/-- One row of the per-moderationLevel threshold table. -/
structure Thresholds where
  toxicity : ℚ
  selfHarm : ℚ
  harassment : ℚ
  deriving Repr, DecidableEq

/-- The thresholds table of AIModerationService; an unknown level falls
back to medium as in the source lookup. -/
def thresholds (level : String) : Thresholds :=
  if level == "low" then { toxicity := mkRat 8 10, selfHarm := mkRat 7 10, harassment := mkRat 8 10 }
  else if level == "medium" then { toxicity := mkRat 6 10, selfHarm := mkRat 5 10, harassment := mkRat 6 10 }
  else if level == "high" then { toxicity := mkRat 4 10, selfHarm := mkRat 3 10, harassment := mkRat 4 10 }
  else if level == "strict" then { toxicity := mkRat 2 10, selfHarm := mkRat 1 10, harassment := mkRat 2 10 }
  else { toxicity := mkRat 6 10, selfHarm := mkRat 5 10, harassment := mkRat 6 10 }

/-- The parsed scores returned by the deep content analyzer. -/
structure GeminiAnalysis where
  toxicity : ℚ
  selfHarm : ℚ
  spam : ℚ
  inappropriate : ℚ
  reason : String
  deriving Repr, DecidableEq

/-- The decision produced from a deep analysis. -/
structure GeminiOutcome where
  action : String
  severity : String
  reason : String
  confidence : ℚ
  deriving Repr, DecidableEq

/-- The threshold application of geminiModeration: self-harm first, then
toxicity or inappropriate against the table (inappropriate is compared to
the harassment threshold), with the kick/mute/warning grading driven by
the toxicity score, then the fixed 0.7 spam cutoff. -/
def geminiActionSeverity (a : GeminiAnalysis) (t : Thresholds) : String × String :=
  if a.selfHarm ≥ t.selfHarm then ("emergency_alert", "critical")
  else if a.toxicity ≥ t.toxicity ∨ a.inappropriate ≥ t.harassment then
    if a.toxicity ≥ mkRat 8 10 then ("kick", "high")
    else if a.toxicity ≥ mkRat 6 10 then ("mute", "medium")
    else ("warning", "low")
  else if a.spam ≥ mkRat 7 10 then ("warning", "low")
  else ("none", "low")

/-- The full decision record built by geminiModeration from the parsed
analysis and the configured level. -/
def geminiDecide (a : GeminiAnalysis) (level : String) : GeminiOutcome :=
  { action := (geminiActionSeverity a (thresholds level)).1,
    severity := (geminiActionSeverity a (thresholds level)).2,
    reason := if a.reason == "" then "AI analysis" else a.reason,
    confidence := max a.toxicity (max a.selfHarm a.inappropriate) }

/-- The decision record returned by moderateMessage. -/
structure ModDecision where
  isEmergency : Bool
  action : String
  severity : String
  reason : String
  deriving Repr, DecidableEq

/-- The emergency alert stored by handleEmergencyContent. -/
structure EmergencyAlert where
  sessionId : String
  participantId : String
  messageContent : String
  alertType : String
  reason : String
  confidence : ℚ
  status : String
  interventionRequired : Bool
  deriving Repr, DecidableEq

/-- handleEmergencyContent: builds the alert stored in the cache, with the
message excerpt truncated to the first 500 characters. -/
def handleEmergencyContent (sessionId participantId content : String)
    (er : EmergencyResult) : EmergencyAlert :=
  { sessionId := sessionId, participantId := participantId,
    messageContent := String.mk (content.data.take 500),
    alertType := "self_harm_risk", reason := er.reason,
    confidence := er.confidence, status := "active",
    interventionRequired := true }

/-- The observable outcome of one moderateMessage call: the decision, the
emergency alerts stored during the call, and which Tier-2 stages were
consulted. -/
structure ModOutcome where
  decision : ModDecision
  alerts : List EmergencyAlert
  consultedBasic : Bool
  consultedGemini : Bool
  deriving Repr, DecidableEq

/-- moderateMessage.  The deep analyzer is modelled by two parameters:
geminiEnabled mirrors isEnabled(), and geminiResult is the parsed analysis
when the call succeeds, or none when the call throws; in the latter case
the catch block of the source re-runs the emergency check and falls back
to allowing the content. -/
def moderateMessage (content sessionId participantId level : String)
    (geminiEnabled : Bool) (geminiResult : Option GeminiAnalysis) : ModOutcome :=
  let er := checkEmergencyContent content
  if er.isEmergency then
    { decision := { isEmergency := true, action := "emergency_alert",
                    severity := "critical", reason := er.reason },
      alerts := [handleEmergencyContent sessionId participantId content er],
      consultedBasic := false, consultedGemini := false }
  else
    let br := basicContentFilter content
    if br.flagged then
      { decision := { isEmergency := false, action := br.action,
                      severity := br.severity, reason := br.reason },
        alerts := [], consultedBasic := true, consultedGemini := false }
    else if geminiEnabled then
      match geminiResult with
      | some a =>
          let g := geminiDecide a level
          { decision := { isEmergency := false, action := g.action,
                          severity := g.severity, reason := g.reason },
            alerts := [], consultedBasic := true, consultedGemini := true }
      | none =>
          let er2 := checkEmergencyContent content
          if er2.isEmergency then
            { decision := { isEmergency := true, action := "emergency_alert",
                            severity := "critical", reason := er2.reason },
              alerts := [handleEmergencyContent sessionId participantId content er2],
              consultedBasic := true, consultedGemini := true }
          else
            { decision := { isEmergency := false, action := "none",
                            severity := "low",
                            reason := "Moderation service unavailable, content allowed" },
              alerts := [], consultedBasic := true, consultedGemini := true }
    else
      { decision := { isEmergency := false, action := "none", severity := "low",
                      reason := "Content appears safe" },
        alerts := [], consultedBasic := true, consultedGemini := false }

/-! ## Session data model and the creation route -/

/-- One roster entry of a live sanctuary session. -/
structure Participant where
  id : String
  alias_ : String
  isHost : Bool
  isModerator : Bool
  isMuted : Bool
  isBlocked : Bool
  handRaised : Bool
  joinedAt : Int
  connectionStatus : String
  deriving Repr, DecidableEq

/-- The LiveSanctuarySession fields the verified routes read or write.
Times are integer milliseconds since the epoch. -/
structure Session where
  id : String
  topic : String
  hostId : String
  hostAlias : String
  expiresAt : Int
  scheduledAt : Option Int
  isActive : Bool
  status : String
  participants : List Participant
  maxParticipants : Nat
  currentParticipants : Nat
  allowAnonymous : Bool
  moderationLevel : String
  estimatedDuration : Int
  isRecorded : Bool
  aiMonitoring : Bool
  emergencyProtocols : Bool
  startTime : Option Int
  deriving Repr, DecidableEq

/-- The request body of the session-creation route (defaults applied by
the caller as in the destructuring of the source). -/
structure CreateRequest where
  topic : String
  scheduledDateTime : Option Int
  estimatedDuration : Int
  maxParticipants : Nat
  allowAnonymous : Bool
  moderationLevel : String
  aiMonitoring : Bool
  isRecorded : Bool
  emergencyContactEnabled : Bool
  deriving Repr, DecidableEq

/-- The participant record the creation route builds for the host. -/
def hostParticipant (hostId hostAlias : String) (now : Int) : Participant :=
  { id := hostId, alias_ := hostAlias, isHost := true, isModerator := true,
    isMuted := false, isBlocked := false, handRaised := false,
    joinedAt := now, connectionStatus := "connected" }

/-- The session-creation route: rejects an empty topic and a past-dated
schedule, computes expiresAt (24 hours for immediate sessions, scheduled
start plus estimatedDuration plus 120 minutes for scheduled ones), and
builds the session document with the host pre-seated. -/
def createSession (now : Int) (sessionId hostId hostAlias : String)
    (r : CreateRequest) : Except String Session :=
  if (jsTrim r.topic.data).isEmpty then Except.error "Topic is required"
  else if r.scheduledDateTime.isSome then
    if r.scheduledDateTime.getD 0 ≤ now then
      Except.error "Scheduled time must be in the future"
    else Except.ok
      { id := sessionId, topic := String.mk (jsTrim r.topic.data), hostId := hostId,
        hostAlias := hostAlias,
        expiresAt := r.scheduledDateTime.getD 0
          + (r.estimatedDuration + 120) * 60 * 1000,
        scheduledAt := r.scheduledDateTime, isActive := false,
        status := "scheduled",
        participants := [hostParticipant hostId hostAlias now],
        maxParticipants := r.maxParticipants, currentParticipants := 0,
        allowAnonymous := r.allowAnonymous,
        moderationLevel := r.moderationLevel,
        estimatedDuration := r.estimatedDuration,
        isRecorded := r.isRecorded, aiMonitoring := r.aiMonitoring,
        emergencyProtocols := r.emergencyContactEnabled,
        startTime := none }
  else
    Except.ok
      { id := sessionId, topic := String.mk (jsTrim r.topic.data), hostId := hostId,
        hostAlias := hostAlias,
        expiresAt := now + 24 * 60 * 60 * 1000,
        scheduledAt := none, isActive := true, status := "active",
        participants := [hostParticipant hostId hostAlias now],
        maxParticipants := r.maxParticipants, currentParticipants := 1,
        allowAnonymous := r.allowAnonymous,
        moderationLevel := r.moderationLevel,
        estimatedDuration := r.estimatedDuration,
        isRecorded := r.isRecorded, aiMonitoring := r.aiMonitoring,
        emergencyProtocols := r.emergencyContactEnabled,
        startTime := some now }

/-! ## Invitations and the join-via-invitation route -/

/-- One append-only usage-log entry of an invitation. -/
structure UsageEntry where
  userId : String
  userAlias : String
  usedAt : Int
  acknowledged : Bool
  deriving Repr, DecidableEq

/-- The SanctuaryInvitation fields the verified route reads or writes. -/
structure Invitation where
  id : String
  sessionId : String
  inviteCode : String
  maxUses : Int
  currentUses : Nat
  usageLog : List UsageEntry
  requireAuthentication : Bool
  blockedUsers : List String
  oneTimeUse : Bool
  requireAcknowledgment : Bool
  autoJoin : Bool
  customWelcomeMessage : String
  isActive : Bool
  expiresAt : Int
  deriving Repr, DecidableEq

/-- Modelled from the spec: the canBeUsed eligibility check of the
SanctuaryInvitation model is invoked by the join route, but its definition
is not among the provided sources.  Per the specification, the invitation
must be active and unexpired; a non-negative maxUses requires
currentUses < maxUses; oneTimeUse requires currentUses = 0; and
blockedUsers must exclude the requester. -/
def canBeUsed (inv : Invitation) (userId : String) (now : Int) : Bool :=
  inv.isActive && decide (now < inv.expiresAt)
    && (decide (inv.maxUses < 0) || decide ((inv.currentUses : Int) < inv.maxUses))
    && (!inv.oneTimeUse || decide (inv.currentUses = 0))
    && !(inv.blockedUsers.contains userId)

/-- Modelled from the spec: incrementUsage of the SanctuaryInvitation
model is invoked by the join route after a completed acknowledgment, but
its definition is not among the provided sources.  Per the specification
it increments currentUses and appends one usageLog entry for the
redemption. -/
def incrementUsage (inv : Invitation) (userId userAlias : String) (now : Int) :
    Invitation :=
  { inv with
    currentUses := inv.currentUses + 1,
    usageLog := inv.usageLog ++
      [{ userId := userId, userAlias := userAlias, usedAt := now,
         acknowledged := true }] }

/-- The SessionAcknowledgment fields the verified route writes. -/
structure Acknowledgment where
  sessionId : String
  invitationId : String
  userId : String
  userAlias : String
  isAnonymous : Bool
  acknowledgmentType : String
  participationConsent : Bool
  recordingConsent : Bool
  aiModerationConsent : Bool
  emergencyProtocolConsent : Bool
  preferredVoiceStyle : String
  voiceModulationEnabled : Bool
  deriving Repr, DecidableEq

/-- The discriminated response shapes of the join-via-invitation route. -/
inductive JoinStatus where
  | invalidInvitation
  | scheduledInfo (timeUntilStart : Int) (requiresAck : Bool)
  | needsAcknowledgment
  | acknowledged
  deriving Repr, DecidableEq

/-- The observable effect of one call of the join-via-invitation route:
the response shape, the invitation document after the call, the
acknowledgments persisted by the call, and the session document after the
call (which the route never mutates). -/
structure JoinResult where
  status : JoinStatus
  invitationAfter : Invitation
  savedAcks : List Acknowledgment
  sessionAfter : Session
  deriving Repr, DecidableEq

/-- The JS string-or-default idiom (x || d) for strings. -/
def jsOrStr (v : Option String) (d : String) : String :=
  match v with
  | none => d
  | some x => if x == "" then d else x

/-- The tail of the join route after the invitation and scheduling gates:
persists the acknowledgment record and consumes one invitation use. -/
def joinRecordAcknowledgment (inv : Invitation) (s : Session) (now : Int)
    (acknowledged : Bool) (userId userAlias : String) (isAuthUser : Bool)
    (voiceStyle : Option String) (enableModulation : Bool) : JoinResult :=
  if inv.requireAcknowledgment && !acknowledged then
    { status := JoinStatus.needsAcknowledgment, invitationAfter := inv,
      savedAcks := [], sessionAfter := s }
  else
    let ack : Acknowledgment :=
      { sessionId := s.id, invitationId := inv.id, userId := userId,
        userAlias := userAlias, isAnonymous := !isAuthUser,
        acknowledgmentType := "invitation_link",
        participationConsent := acknowledged,
        recordingConsent := acknowledged && s.isRecorded,
        aiModerationConsent := acknowledged && s.aiMonitoring,
        emergencyProtocolConsent := acknowledged && s.emergencyProtocols,
        preferredVoiceStyle := jsOrStr voiceStyle "natural",
        voiceModulationEnabled := enableModulation }
    { status := JoinStatus.acknowledged,
      invitationAfter := incrementUsage inv userId userAlias now,
      savedAcks := [ack], sessionAfter := s }

/-- The join-via-invitation route: the invitation eligibility gate, then
the early-scheduled-session gate (more than 15 minutes before the
scheduled start nothing is redeemed), then the acknowledgment gate, and
only past all three the persisting tail. -/
def joinViaInvite (inv : Invitation) (s : Session) (now : Int)
    (acknowledged : Bool) (userId userAlias : String) (isAuthUser : Bool)
    (voiceStyle : Option String) (enableModulation : Bool) : JoinResult :=
  if !(canBeUsed inv userId now) then
    { status := JoinStatus.invalidInvitation, invitationAfter := inv,
      savedAcks := [], sessionAfter := s }
  else if s.status == "scheduled" && s.scheduledAt.isSome
      && decide (s.scheduledAt.getD 0 - now > 15 * 60 * 1000) then
    { status := JoinStatus.scheduledInfo (s.scheduledAt.getD 0 - now)
        (inv.requireAcknowledgment && !acknowledged),
      invitationAfter := inv, savedAcks := [], sessionAfter := s }
  else
    joinRecordAcknowledgment inv s now acknowledged userId userAlias
      isAuthUser voiceStyle enableModulation

/-! ## The participant-admitting join of the lifecycle state machine -/

/-- Result of the admitting join operation. -/
inductive AdmitResult where
  | notFound
  | scheduledWait (timeUntilStart : Int)
  | capacityExceeded
  | anonymousForbidden
  | admitted
  deriving Repr, DecidableEq

/-- Modelled from the spec: the capacity and anonymity gates of the
admitting join of the Session Lifecycle State Machine; the operation is
invoked from the real-time layer and is not among the provided sources
(the provided invite route only records acknowledgments).  Per the
specification the join is rejected when the roster is at capacity, then
when an anonymous join is requested but anonymous access is disabled;
otherwise the participant is appended, the counter incremented, and a
scheduled session is activated on its first admission. -/
def admitJoinGate (s : Session) (now : Int) (p : Participant)
    (isAnonymous : Bool) : AdmitResult × Session :=
  if s.participants.length ≥ s.maxParticipants then
    (AdmitResult.capacityExceeded, s)
  else if isAnonymous && !s.allowAnonymous then
    (AdmitResult.anonymousForbidden, s)
  else
    (AdmitResult.admitted,
      { s with
        participants := s.participants ++ [p],
        currentParticipants := s.currentParticipants + 1,
        status := if s.status == "scheduled" then "active" else s.status,
        isActive := true,
        startTime := if s.status == "scheduled" then some now else s.startTime })

/-- Modelled from the spec: the admitting join operation of the Session
Lifecycle State Machine, not among the provided sources.  Rules in the
order given by the specification: reject an ended session; return
scheduling info for a scheduled session more than 15 minutes before its
start; then the capacity, anonymity, and admission rules of the gate. -/
def admitJoin (s : Session) (now : Int) (p : Participant)
    (isAnonymous : Bool) : AdmitResult × Session :=
  if s.status == "ended" then (AdmitResult.notFound, s)
  else
    match s.scheduledAt with
    | some t =>
        if s.status == "scheduled" && decide (t - now > 15 * 60 * 1000) then
          (AdmitResult.scheduledWait (t - now), s)
        else admitJoinGate s now p isAnonymous
    | none => admitJoinGate s now p isAnonymous

/-! ## ElevenLabs voice-settings validation -/

/-- The JS number-or-default idiom (x || d): undefined and 0 both fall
back to the default. -/
def jsOrNum (v : Option ℚ) (d : ℚ) : ℚ :=
  match v with
  | none => d
  | some x => if x == 0 then d else x

/-- The keys of the voiceStyles map of ElevenLabsService. -/
def voiceStyleKeys : List String :=
  ["natural", "deep", "gentle", "professional", "friendly",
   "authoritative", "calm", "energetic", "young", "warm"]

/-- The settings object passed to validateVoiceSettings;  absent fields
are none as in JS. -/
structure VoiceSettingsInput where
  voice_style : Option String
  stability : Option ℚ
  similarity_boost : Option ℚ
  style : Option ℚ
  use_speaker_boost : Bool
  deriving Repr, DecidableEq

/-- The validated settings returned by validateVoiceSettings. -/
structure ValidatedVoiceSettings where
  voice_style : String
  stability : ℚ
  similarity_boost : ℚ
  style : ℚ
  use_speaker_boost : Bool
  deriving Repr, DecidableEq

/-- validateVoiceSettings of ElevenLabsService: defaults then clamps the
numeric settings into [0, 1] and replaces an unrecognized voice style by
the natural style. -/
def validateVoiceSettings (s : VoiceSettingsInput) : ValidatedVoiceSettings :=
  let vs := jsOrStr s.voice_style "natural"
  { voice_style := if voiceStyleKeys.contains vs then vs else "natural",
    stability := max 0 (min 1 (jsOrNum s.stability (mkRat 1 2))),
    similarity_boost := max 0 (min 1 (jsOrNum s.similarity_boost (mkRat 4 5))),
    style := max 0 (min 1 (jsOrNum s.style 0)),
    use_speaker_boost := s.use_speaker_boost }

/-! ## Concrete sample values used by witnesses -/

/-- A concrete open invitation. -/
def sampleInvitation : Invitation :=
  { id := "invitation-1", sessionId := "sess-1", inviteCode := "CODE1234",
    maxUses := -1, currentUses := 0, usageLog := [],
    requireAuthentication := false, blockedUsers := [], oneTimeUse := false,
    requireAcknowledgment := true, autoJoin := false,
    customWelcomeMessage := "", isActive := true, expiresAt := 2000000000 }

/-- A concrete session scheduled at t = 1,200,000 ms. -/
def sampleScheduledSession : Session :=
  { id := "sess-1", topic := "Support", hostId := "host-1", hostAlias := "Host",
    expiresAt := 100000000, scheduledAt := some 1200000, isActive := false,
    status := "scheduled", participants := [hostParticipant "host-1" "Host" 0],
    maxParticipants := 10, currentParticipants := 0, allowAnonymous := true,
    moderationLevel := "medium", estimatedDuration := 60, isRecorded := false,
    aiMonitoring := true, emergencyProtocols := true, startTime := none }

/-- A concrete active unscheduled session with spare capacity. -/
def sampleActiveSession : Session :=
  { id := "sess-1", topic := "Support", hostId := "host-1", hostAlias := "Host",
    expiresAt := 100000000, scheduledAt := none, isActive := true,
    status := "active", participants := [hostParticipant "host-1" "Host" 0],
    maxParticipants := 10, currentParticipants := 1, allowAnonymous := true,
    moderationLevel := "medium", estimatedDuration := 60, isRecorded := false,
    aiMonitoring := true, emergencyProtocols := true, startTime := some 0 }

/-- A concrete active session already at its capacity of one. -/
def sampleFullSession : Session :=
  { id := "sess-2", topic := "Support", hostId := "host-1", hostAlias := "Host",
    expiresAt := 100000000, scheduledAt := none, isActive := true,
    status := "active", participants := [hostParticipant "host-1" "Host" 0],
    maxParticipants := 1, currentParticipants := 1, allowAnonymous := true,
    moderationLevel := "medium", estimatedDuration := 60, isRecorded := false,
    aiMonitoring := true, emergencyProtocols := true, startTime := some 0 }

/-- A concrete non-host participant. -/
def sampleParticipant : Participant :=
  { id := "user-9", alias_ := "Guest", isHost := false, isModerator := false,
    isMuted := false, isBlocked := false, handRaised := false,
    joinedAt := 5, connectionStatus := "connected" }

/-- A concrete creation request scheduled at t = 500,000 ms. -/
def sampleScheduledRequest : CreateRequest :=
  { topic := "Hello", scheduledDateTime := some 500000, estimatedDuration := 60,
    maxParticipants := 50, allowAnonymous := true, moderationLevel := "medium",
    aiMonitoring := true, isRecorded := false, emergencyContactEnabled := true }

/-- The session document the creation route builds for the scheduled
sample request at creation time 0. -/
def sampleScheduledCreated : Session :=
  { id := "sess-1", topic := "Hello", hostId := "host-1", hostAlias := "Host",
    expiresAt := 500000 + (60 + 120) * 60 * 1000, scheduledAt := some 500000,
    isActive := false, status := "scheduled",
    participants := [hostParticipant "host-1" "Host" 0],
    maxParticipants := 50, currentParticipants := 0, allowAnonymous := true,
    moderationLevel := "medium", estimatedDuration := 60, isRecorded := false,
    aiMonitoring := true, emergencyProtocols := true, startTime := none }

/-- A concrete creation request without a schedule. -/
def sampleImmediateRequest : CreateRequest :=
  { topic := "Hello", scheduledDateTime := none, estimatedDuration := 60,
    maxParticipants := 50, allowAnonymous := true, moderationLevel := "medium",
    aiMonitoring := true, isRecorded := false, emergencyContactEnabled := true }

/-! ## Helper lemmas -/

theorem string_mk_data (s : String) : String.mk s.data = s := by
  cases s
  rfl

theorem isPrefixList_take (n : Nat) (l : List Char) :
    isPrefixList (l.take n) l = true := by
  induction l generalizing n with
  | nil => cases n <;> rfl
  | cons a t ih =>
    cases n with
    | zero => rfl
    | succ m => simp [List.take_succ_cons, isPrefixList, ih m]

/-- Content with a crisis keyword or crisis pattern makes the Tier-1
check fire. -/
theorem crisis_check_fires (content : String)
    (h : hasCrisisContent content = true) :
    (checkEmergencyContent content).isEmergency = true := by
  unfold checkEmergencyContent
  split
  · rfl
  · rename_i hfind
    split
    · rfl
    · rename_i hpat
      exfalso
      unfold hasCrisisContent at h
      rw [Bool.or_eq_true] at h
      rcases h with hk | hp
      · obtain ⟨kw, hmem, hkw⟩ := List.any_eq_true.mp hk
        exact absurd hkw (by simpa using List.find?_eq_none.mp hfind kw hmem)
      · exact hpat hp

/-! ## Claim theorems -/

/-- C1: a message whose content contains a configured crisis keyword or
matches a crisis regex pattern is always moderated to an emergency-alert
decision of critical severity, an EmergencyAlert is stored, and this holds
for every configured moderationLevel and every state of the deep analyzer;
neither Tier-2 stage (basic heuristic filter, deep scored analysis) is
consulted. -/
theorem crisis_always_emergency_alert (content sid pid level : String)
    (en : Bool) (gr : Option GeminiAnalysis)
    (h : hasCrisisContent content = true) :
    (moderateMessage content sid pid level en gr).decision.action = "emergency_alert" ∧
    (moderateMessage content sid pid level en gr).decision.severity = "critical" ∧
    (moderateMessage content sid pid level en gr).decision.isEmergency = true ∧
    (moderateMessage content sid pid level en gr).alerts
      = [handleEmergencyContent sid pid content (checkEmergencyContent content)] ∧
    (moderateMessage content sid pid level en gr).consultedBasic = false ∧
    (moderateMessage content sid pid level en gr).consultedGemini = false := by
  have hem := crisis_check_fires content h
  unfold moderateMessage
  simp [hem]

/-- Witness for C1 at a crisis keyword with moderationLevel low. -/
theorem crisis_always_emergency_alert_witness :
    (moderateMessage "I want to kill myself" "sess1" "user1" "low" true none).decision.action = "emergency_alert" ∧
    (moderateMessage "I want to kill myself" "sess1" "user1" "low" true none).decision.severity = "critical" ∧
    (moderateMessage "I want to kill myself" "sess1" "user1" "low" true none).decision.isEmergency = true ∧
    (moderateMessage "I want to kill myself" "sess1" "user1" "low" true none).alerts
      = [handleEmergencyContent "sess1" "user1" "I want to kill myself"
          (checkEmergencyContent "I want to kill myself")] ∧
    (moderateMessage "I want to kill myself" "sess1" "user1" "low" true none).consultedBasic = false ∧
    (moderateMessage "I want to kill myself" "sess1" "user1" "low" true none).consultedGemini = false :=
  crisis_always_emergency_alert "I want to kill myself" "sess1" "user1" "low" true none (by decide)

/-- C9: the EmergencyAlert stored for a message that triggers the Tier-1
crisis check carries an excerpt that is exactly the first at-most-500
characters of the message (a message of at most 500 characters is stored
whole), with alert status active. -/
theorem emergency_alert_excerpt (content sid pid level : String)
    (en : Bool) (gr : Option GeminiAnalysis)
    (h : hasCrisisContent content = true) :
    ∃ a : EmergencyAlert,
      (moderateMessage content sid pid level en gr).alerts = [a] ∧
      a.status = "active" ∧
      a.messageContent.data = content.data.take 500 ∧
      isPrefixList a.messageContent.data content.data = true ∧
      a.messageContent.length = min 500 content.length ∧
      (content.length ≤ 500 → a.messageContent = content) := by
  have hem := crisis_check_fires content h
  refine ⟨handleEmergencyContent sid pid content (checkEmergencyContent content),
    ?_, rfl, rfl, ?_, ?_, ?_⟩
  · unfold moderateMessage
    simp [hem]
  · exact isPrefixList_take 500 content.data
  · show (content.data.take 500).length = min 500 content.data.length
    exact List.length_take 500 content.data
  · intro hle
    show String.mk (content.data.take 500) = content
    rw [List.take_of_length_le hle]

/-- Witness for C9 at a short crisis message. -/
theorem emergency_alert_excerpt_witness :
    ∃ a : EmergencyAlert,
      (moderateMessage "I have no reason to live" "sess2" "user2" "medium" false none).alerts = [a] ∧
      a.status = "active" ∧
      a.messageContent.data = "I have no reason to live".data.take 500 ∧
      isPrefixList a.messageContent.data "I have no reason to live".data = true ∧
      a.messageContent.length = min 500 "I have no reason to live".length ∧
      ("I have no reason to live".length ≤ 500 → a.messageContent = "I have no reason to live") :=
  emergency_alert_excerpt "I have no reason to live" "sess2" "user2" "medium" false none (by decide)

/-- C4 counterexample: with the deep analyzer unavailable and no crisis
match, a 21-character all-caps message is still flagged by the basic
heuristic filter, so the returned action is a warning and not the allow
outcome the claim promises. -/
theorem failopen_counterexample :
    (checkEmergencyContent "ABABABABABABABABABABA").isEmergency = false ∧
    (moderateMessage "ABABABABABABABABABABA" "sess3" "user3" "medium" false none).decision.action = "warning" ∧
    (moderateMessage "ABABABABABABABABABABA" "sess3" "user3" "medium" false none).decision.action ≠ "none" := by
  decide

/-- C4 (amended): when the deep analyzer is unavailable or its call
errors, the Tier-1 crisis check still runs and is authoritative, and when
it does not match and the basic heuristic filter does not flag the
message, the decision is the allow outcome (action none, low severity,
no alert stored). -/
theorem failopen_allows_content (content sid pid level : String) (en : Bool)
    (gr : Option GeminiAnalysis) (hdeep : en = false ∨ gr = none) :
    ((checkEmergencyContent content).isEmergency = true →
      (moderateMessage content sid pid level en gr).decision.action = "emergency_alert" ∧
      (moderateMessage content sid pid level en gr).decision.severity = "critical") ∧
    ((checkEmergencyContent content).isEmergency = false →
      (basicContentFilter content).flagged = false →
      (moderateMessage content sid pid level en gr).decision.action = "none" ∧
      (moderateMessage content sid pid level en gr).decision.severity = "low" ∧
      (moderateMessage content sid pid level en gr).decision.isEmergency = false ∧
      (moderateMessage content sid pid level en gr).alerts = []) := by
  constructor
  · intro hem
    unfold moderateMessage
    simp [hem]
  · intro hem hbf
    rcases hdeep with h | h
    · subst h
      unfold moderateMessage
      simp [hem, hbf]
    · subst h
      cases en <;> (unfold moderateMessage; simp [hem, hbf])

/-- Witness for C4 (amended) at a harmless message with the analyzer
disabled. -/
theorem failopen_allows_content_witness :
    (moderateMessage "hello" "sess4" "user4" "medium" false none).decision.action = "none" ∧
    (moderateMessage "hello" "sess4" "user4" "medium" false none).decision.severity = "low" ∧
    (moderateMessage "hello" "sess4" "user4" "medium" false none).decision.isEmergency = false ∧
    (moderateMessage "hello" "sess4" "user4" "medium" false none).alerts = [] :=
  (failopen_allows_content "hello" "sess4" "user4" "medium" false none
    (Or.inl rfl)).2 (by decide) (by decide)

/-- C5 counterexample: at moderationLevel medium an analysis with
inappropriate = 0.9 (crossing its threshold and at least 0.8) but zero
toxicity yields a warning of low severity, not the kick the claim
predicts for a crossing score of at least 0.8. -/
theorem gemini_grading_counterexample :
    mkRat 9 10 ≥ (thresholds "medium").harassment ∧
    mkRat 9 10 ≥ mkRat 8 10 ∧
    (geminiDecide { toxicity := 0, selfHarm := 0, spam := 0, inappropriate := mkRat 9 10, reason := "r" } "medium").action = "warning" ∧
    (geminiDecide { toxicity := 0, selfHarm := 0, spam := 0, inappropriate := mkRat 9 10, reason := "r" } "medium").action ≠ "kick" ∧
    (geminiDecide { toxicity := 0, selfHarm := 0, spam := 0, inappropriate := mkRat 9 10, reason := "r" } "medium").severity = "low" := by
  decide

/-- C5 (amended): self-harm crossing its threshold maps to emergency
alert at critical severity; otherwise toxicity or inappropriate crossing
its threshold maps to kick, mute, or warning graded by the toxicity score
alone (kick when toxicity is at least 0.8, mute when at least 0.6, else
warning) at decreasing severity; otherwise spam of at least 0.7 maps to a
warning; otherwise no action. -/
theorem gemini_threshold_decision (a : GeminiAnalysis) (level : String)
    (t : Thresholds) (d : GeminiOutcome)
    (ht : t = thresholds level) (hd : d = geminiDecide a level) :
    (a.selfHarm ≥ t.selfHarm → d.action = "emergency_alert" ∧ d.severity = "critical") ∧
    (¬ a.selfHarm ≥ t.selfHarm →
      (a.toxicity ≥ t.toxicity ∨ a.inappropriate ≥ t.harassment) →
        ((a.toxicity ≥ mkRat 8 10 → d.action = "kick" ∧ d.severity = "high") ∧
         (¬ a.toxicity ≥ mkRat 8 10 → a.toxicity ≥ mkRat 6 10 →
            d.action = "mute" ∧ d.severity = "medium") ∧
         (¬ a.toxicity ≥ mkRat 6 10 → d.action = "warning" ∧ d.severity = "low"))) ∧
    (¬ a.selfHarm ≥ t.selfHarm →
      ¬ (a.toxicity ≥ t.toxicity ∨ a.inappropriate ≥ t.harassment) →
        (a.spam ≥ mkRat 7 10 → d.action = "warning" ∧ d.severity = "low") ∧
        (¬ a.spam ≥ mkRat 7 10 → d.action = "none" ∧ d.severity = "low")) := by
  subst ht hd
  unfold geminiDecide geminiActionSeverity
  refine ⟨fun h1 => ?_,
          fun h1 h2 => ⟨fun h3 => ?_, fun h3 h4 => ?_, fun h3 => ?_⟩,
          fun h1 h2 => ⟨fun h3 => ?_, fun h3 => ?_⟩⟩ <;>
    split_ifs <;>
      first
        | exact ⟨rfl, rfl⟩
        | tauto
        | (exfalso
           have h68 : mkRat 6 10 ≤ mkRat 8 10 := by decide
           linarith)

/-- Witness for C5 (amended): self-harm 0.6 at level medium crosses the
0.5 threshold and yields the emergency alert. -/
theorem gemini_threshold_decision_witness :
    (geminiDecide { toxicity := 0, selfHarm := mkRat 6 10, spam := 0, inappropriate := 0, reason := "r" } "medium").action = "emergency_alert" ∧
    (geminiDecide { toxicity := 0, selfHarm := mkRat 6 10, spam := 0, inappropriate := 0, reason := "r" } "medium").severity = "critical" :=
  (gemini_threshold_decision
    { toxicity := 0, selfHarm := mkRat 6 10, spam := 0, inappropriate := 0, reason := "r" }
    "medium" (thresholds "medium")
    (geminiDecide { toxicity := 0, selfHarm := mkRat 6 10, spam := 0, inappropriate := 0, reason := "r" } "medium") rfl rfl).1 (by decide)

/-- The gate step never pushes the roster past capacity. -/
theorem admitJoinGate_capacity (s : Session) (now : Int) (p : Participant)
    (anon : Bool) (hinv : s.participants.length ≤ s.maxParticipants) :
    (admitJoinGate s now p anon).2.participants.length
      ≤ (admitJoinGate s now p anon).2.maxParticipants := by
  unfold admitJoinGate
  split_ifs <;>
    first
      | exact hinv
      | (show (s.participants ++ [p]).length ≤ s.maxParticipants
         rw [List.length_append]
         simp only [List.length_singleton]
         omega)

/-- C2: an admitting join preserves the capacity invariant, and a join
against an active session that is already at capacity is rejected as
CapacityExceeded and leaves the roster length unchanged. -/
theorem join_capacity (s : Session) (now : Int) (p : Participant) (anon : Bool)
    (hinv : s.participants.length ≤ s.maxParticipants) :
    (admitJoin s now p anon).2.participants.length
      ≤ (admitJoin s now p anon).2.maxParticipants ∧
    (s.status = "active" → s.participants.length ≥ s.maxParticipants →
      (admitJoin s now p anon).1 = AdmitResult.capacityExceeded ∧
      (admitJoin s now p anon).2.participants.length = s.participants.length) := by
  constructor
  · unfold admitJoin
    split
    · exact hinv
    · split
      · split
        · exact hinv
        · exact admitJoinGate_capacity s now p anon hinv
      · exact admitJoinGate_capacity s now p anon hinv
  · intro hact hcap
    unfold admitJoin admitJoinGate
    rw [hact, if_pos hcap]
    cases s.scheduledAt <;> exact ⟨rfl, rfl⟩

/-- Witness for C2 at an active one-seat session already holding its host. -/
theorem join_capacity_witness :
    (admitJoin sampleFullSession 0 sampleParticipant false).1
      = AdmitResult.capacityExceeded ∧
    (admitJoin sampleFullSession 0 sampleParticipant false).2.participants.length
      = sampleFullSession.participants.length :=
  (join_capacity sampleFullSession 0 sampleParticipant false (by decide)).2
    rfl (by decide)

/-- C3: a redemption answered with the scheduled or the
requires-acknowledgment shape leaves the invitation untouched and persists
no acknowledgment; only the acknowledged outcome persists one
acknowledgment, increments currentUses and appends one usageLog entry. -/
theorem invitation_use_frame (inv : Invitation) (s : Session) (now : Int)
    (ack : Bool) (uid uali : String) (auth : Bool) (vs : Option String)
    (vm : Bool) :
    (((∃ tms b, (joinViaInvite inv s now ack uid uali auth vs vm).status
          = JoinStatus.scheduledInfo tms b) ∨
      (joinViaInvite inv s now ack uid uali auth vs vm).status
          = JoinStatus.needsAcknowledgment) →
      (joinViaInvite inv s now ack uid uali auth vs vm).invitationAfter = inv ∧
      (joinViaInvite inv s now ack uid uali auth vs vm).savedAcks = []) ∧
    ((joinViaInvite inv s now ack uid uali auth vs vm).status
        = JoinStatus.acknowledged →
      (joinViaInvite inv s now ack uid uali auth vs vm).invitationAfter.currentUses
        = inv.currentUses + 1 ∧
      (∃ e, (joinViaInvite inv s now ack uid uali auth vs vm).invitationAfter.usageLog
        = inv.usageLog ++ [e]) ∧
      (joinViaInvite inv s now ack uid uali auth vs vm).savedAcks.length = 1) := by
  unfold joinViaInvite joinRecordAcknowledgment
  by_cases hcb : (!canBeUsed inv uid now) = true
  · rw [if_pos hcb]
    exact ⟨fun h => ⟨rfl, rfl⟩, fun h => by simp at h⟩
  · rw [if_neg hcb]
    by_cases hss : (s.status == "scheduled" && s.scheduledAt.isSome
        && decide (s.scheduledAt.getD 0 - now > 15 * 60 * 1000)) = true
    · rw [if_pos hss]
      exact ⟨fun h => ⟨rfl, rfl⟩, fun h => by simp at h⟩
    · rw [if_neg hss]
      by_cases hra : (inv.requireAcknowledgment && !ack) = true
      · rw [if_pos hra]
        exact ⟨fun h => ⟨rfl, rfl⟩, fun h => by simp at h⟩
      · rw [if_neg hra]
        refine ⟨fun h => ?_, fun h => ⟨rfl, ⟨_, rfl⟩, rfl⟩⟩
        rcases h with ⟨tms, b, h⟩ | h <;> simp at h

/-- Witness for C3 at a requires-acknowledgment redemption. -/
theorem invitation_use_frame_witness :
    (joinViaInvite sampleInvitation sampleActiveSession 0 false "user-9" "Guest" false none false).invitationAfter = sampleInvitation ∧
    (joinViaInvite sampleInvitation sampleActiveSession 0 false "user-9" "Guest" false none false).savedAcks = [] :=
  (invitation_use_frame sampleInvitation sampleActiveSession 0 false "user-9"
    "Guest" false none false).1 (Or.inr (by decide))

/-- C6: a join via invitation against a scheduled session more than 15
minutes before its start answers with the scheduled shape carrying
timeUntilStart = scheduledAt minus now, consumes nothing, and admits
nobody (the session document is untouched). -/
theorem early_scheduled_join (inv : Invitation) (s : Session) (now t : Int)
    (ack : Bool) (uid uali : String) (auth : Bool) (vs : Option String)
    (vm : Bool)
    (hcan : canBeUsed inv uid now = true)
    (hstat : s.status = "scheduled") (hsch : s.scheduledAt = some t)
    (hearly : t - now > 15 * 60 * 1000) :
    (joinViaInvite inv s now ack uid uali auth vs vm).status
      = JoinStatus.scheduledInfo (t - now) (inv.requireAcknowledgment && !ack) ∧
    (joinViaInvite inv s now ack uid uali auth vs vm).invitationAfter = inv ∧
    (joinViaInvite inv s now ack uid uali auth vs vm).savedAcks = [] ∧
    (joinViaInvite inv s now ack uid uali auth vs vm).sessionAfter = s := by
  have h2 : (900000 : Int) < t - now := by omega
  unfold joinViaInvite
  simp [hcan, hsch, hstat, hearly, h2]

/-- Witness for C6 twenty minutes before the scheduled start:
timeUntilStart is exactly 1,200,000 ms. -/
theorem early_scheduled_join_witness :
    (joinViaInvite sampleInvitation sampleScheduledSession 0 false "user-9" "Guest" false none false).status = JoinStatus.scheduledInfo 1200000 true ∧
    (joinViaInvite sampleInvitation sampleScheduledSession 0 false "user-9" "Guest" false none false).invitationAfter = sampleInvitation ∧
    (joinViaInvite sampleInvitation sampleScheduledSession 0 false "user-9" "Guest" false none false).savedAcks = [] ∧
    (joinViaInvite sampleInvitation sampleScheduledSession 0 false "user-9" "Guest" false none false).sessionAfter = sampleScheduledSession := by
  have h := early_scheduled_join sampleInvitation sampleScheduledSession 0
    1200000 false "user-9" "Guest" false none false (by decide) rfl rfl (by decide)
  simpa [sampleInvitation] using h

/-- C7: every created session has expiresAt set; without a schedule it is
creation time plus 24 hours, with a future schedule it is the scheduled
start plus estimatedDuration plus 120 minutes. -/
theorem session_expiry (now : Int) (sid hid hali : String) (r : CreateRequest)
    (s : Session) (h : createSession now sid hid hali r = Except.ok s) :
    (r.scheduledDateTime = none → s.expiresAt = now + 24 * 60 * 60 * 1000) ∧
    (∀ t, r.scheduledDateTime = some t →
      s.expiresAt = t + (r.estimatedDuration + 120) * 60 * 1000) := by
  constructor
  · intro hn
    unfold createSession at h
    rw [hn] at h
    simp only [Option.isSome_none, Bool.false_eq_true, if_false] at h
    split_ifs at h with h1
    simp only [Except.ok.injEq] at h
    subst h
    rfl
  · intro t ht
    unfold createSession at h
    rw [ht] at h
    simp only [Option.isSome_some, Option.getD_some] at h
    split_ifs at h with h1 h2
    simp only [Except.ok.injEq] at h
    subst h
    rfl

/-- Witness for C7 at a request scheduled for t = 500,000 ms with a
60-minute estimated duration. -/
theorem session_expiry_witness :
    createSession 0 "sess-1" "host-1" "Host" sampleScheduledRequest
      = Except.ok sampleScheduledCreated ∧
    sampleScheduledCreated.expiresAt
      = 500000 + (sampleScheduledRequest.estimatedDuration + 120) * 60 * 1000 :=
  ⟨by rfl,
   (session_expiry 0 "sess-1" "host-1" "Host" sampleScheduledRequest
      sampleScheduledCreated (by rfl)).2 500000 rfl⟩

/-- C10: a session created with a future schedule starts with status
scheduled and a zero participant counter while its roster already holds
exactly the host (isHost true), so counter and roster length disagree; an
unscheduled creation starts active with counter one. -/
theorem scheduled_roster_mismatch (now : Int) (sid hid hali : String)
    (r : CreateRequest) (s : Session)
    (h : createSession now sid hid hali r = Except.ok s) :
    (∀ t, r.scheduledDateTime = some t →
        s.status = "scheduled" ∧ s.currentParticipants = 0 ∧
        s.participants = [hostParticipant hid hali now] ∧
        s.participants.length = 1 ∧
        (∀ q ∈ s.participants, q.isHost = true) ∧
        s.currentParticipants ≠ s.participants.length) ∧
    (r.scheduledDateTime = none →
        s.status = "active" ∧ s.currentParticipants = 1) := by
  constructor
  · intro t ht
    unfold createSession at h
    rw [ht] at h
    simp only [Option.isSome_some, Option.getD_some] at h
    split_ifs at h with h1 h2
    simp only [Except.ok.injEq] at h
    subst h
    refine ⟨rfl, rfl, rfl, rfl, ?_, by simp⟩
    intro q hq
    simp only [List.mem_singleton] at hq
    subst hq
    rfl
  · intro hn
    unfold createSession at h
    rw [hn] at h
    simp only [Option.isSome_none, Bool.false_eq_true, if_false] at h
    split_ifs at h with h1
    simp only [Except.ok.injEq] at h
    subst h
    exact ⟨rfl, rfl⟩

/-- Witness for C10 at the scheduled sample request. -/
theorem scheduled_roster_mismatch_witness :
    createSession 0 "sess-1" "host-1" "Host" sampleScheduledRequest
      = Except.ok sampleScheduledCreated ∧
    sampleScheduledCreated.status = "scheduled" ∧
    sampleScheduledCreated.currentParticipants = 0 ∧
    sampleScheduledCreated.participants.length = 1 ∧
    sampleScheduledCreated.currentParticipants
      ≠ sampleScheduledCreated.participants.length :=
  ⟨by rfl,
    ((scheduled_roster_mismatch 0 "sess-1" "host-1" "Host" sampleScheduledRequest
        sampleScheduledCreated (by rfl)).1 500000 rfl).1,
    ((scheduled_roster_mismatch 0 "sess-1" "host-1" "Host" sampleScheduledRequest
        sampleScheduledCreated (by rfl)).1 500000 rfl).2.1,
    ((scheduled_roster_mismatch 0 "sess-1" "host-1" "Host" sampleScheduledRequest
        sampleScheduledCreated (by rfl)).1 500000 rfl).2.2.2.1,
    ((scheduled_roster_mismatch 0 "sess-1" "host-1" "Host" sampleScheduledRequest
        sampleScheduledCreated (by rfl)).1 500000 rfl).2.2.2.2.2⟩

/-- C8: validated voice settings always have stability, similarity boost
and style inside [0, 1] on the normalized scale (a stability submitted as
150 comes back as the maximum 1), and a submitted voice style outside the
enumerated set is replaced by the natural style. -/
theorem voice_settings_clamped (s : VoiceSettingsInput) :
    (0 ≤ (validateVoiceSettings s).stability ∧ (validateVoiceSettings s).stability ≤ 1) ∧
    (0 ≤ (validateVoiceSettings s).similarity_boost ∧ (validateVoiceSettings s).similarity_boost ≤ 1) ∧
    (0 ≤ (validateVoiceSettings s).style ∧ (validateVoiceSettings s).style ≤ 1) ∧
    (s.stability = some 150 → (validateVoiceSettings s).stability = 1) ∧
    (∀ v, s.voice_style = some v → voiceStyleKeys.contains v = false →
      (validateVoiceSettings s).voice_style = "natural") := by
  refine ⟨⟨le_max_left 0 _, max_le (by norm_num) (min_le_left 1 _)⟩,
          ⟨le_max_left 0 _, max_le (by norm_num) (min_le_left 1 _)⟩,
          ⟨le_max_left 0 _, max_le (by norm_num) (min_le_left 1 _)⟩,
          ?_, ?_⟩
  · intro h
    show max 0 (min 1 (jsOrNum s.stability (mkRat 1 2))) = 1
    rw [h]
    decide
  · intro v hv hvk
    show (if voiceStyleKeys.contains (jsOrStr s.voice_style "natural")
           then jsOrStr s.voice_style "natural" else "natural") = "natural"
    rw [hv]
    cases hbeq : (v == "") with
    | false =>
        have hj : jsOrStr (some v) "natural" = v := by simp [jsOrStr, hbeq]
        rw [hj, hvk]
        simp
    | true =>
        have hj : jsOrStr (some v) "natural" = "natural" := by simp [jsOrStr, hbeq]
        rw [hj]
        simp

/-- Witness for C8 at stability 150 and an unrecognized robot style. -/
theorem voice_settings_clamped_witness :
    (validateVoiceSettings { voice_style := some "robot", stability := some 150, similarity_boost := none, style := none, use_speaker_boost := false }).stability = 1 ∧
    (validateVoiceSettings { voice_style := some "robot", stability := some 150, similarity_boost := none, style := none, use_speaker_boost := false }).voice_style = "natural" :=
  ⟨(voice_settings_clamped { voice_style := some "robot", stability := some 150, similarity_boost := none, style := none, use_speaker_boost := false }).2.2.2.1 rfl,
   (voice_settings_clamped { voice_style := some "robot", stability := some 150, similarity_boost := none, style := none, use_speaker_boost := false }).2.2.2.2 "robot" rfl (by decide)⟩

end Veilo
